import Mathlib

/-!
Verification of the request/error contract layer of a Node.js backend
skeleton: the error taxonomy (src/core/errors.ts), the response-envelope
helpers (src/core/response.ts), the global error sink
(src/middleware/errorHandler.ts), the validation gate
(src/middleware/validation.ts), the auth gate (src/middleware/auth.ts)
and the health probe (src/modules/health).  JavaScript numbers are
modelled as natural numbers (all values in scope are non-negative
integers), JS objects with insertion-ordered string keys as association
lists, and thrown/`next(err)`-propagated errors as explicit values.
-/

namespace NodeArch

/-- A `Record` from field path to the list of that field's violation
messages, with JavaScript object semantics: string keys are unique and
enumerate in insertion order.  Modelled as an association list. -/
abbrev FieldErrorMap := List (String × List String)

/-- The fields every `AppError` instance carries
(src/core/errors.ts, class `AppError`). -/
structure AppErrorData where
  message : String
  statusCode : Nat
  code : String
  isOperational : Bool
  deriving Repr, DecidableEq

/-- The body of the `AppError` constructor:
`constructor(message, statusCode = 500, code = 'INTERNAL_ERROR',
isOperational = true)` simply stores its four arguments. -/
def AppError.make (message : String) (statusCode : Nat) (code : String)
    (isOperational : Bool) : AppErrorData :=
  { message := message, statusCode := statusCode, code := code,
    isOperational := isOperational }

/-- `class BadRequestError extends AppError`:
`super(message, 400, code)` (so `isOperational` keeps its default `true`). -/
def BadRequestError (message code : String) : AppErrorData :=
  AppError.make message 400 code true

/-- `new BadRequestError()` with both TS default parameters. -/
def BadRequestError.noArg : AppErrorData :=
  BadRequestError "Bad Request" "BAD_REQUEST"

/-- `class UnauthorizedError extends AppError`: `super(message, 401, code)`. -/
def UnauthorizedError (message code : String) : AppErrorData :=
  AppError.make message 401 code true

/-- `new UnauthorizedError()` with both TS default parameters. -/
def UnauthorizedError.noArg : AppErrorData :=
  UnauthorizedError "Unauthorized" "UNAUTHORIZED"

/-- `new UnauthorizedError(message)`: the `code` parameter keeps its TS
default `'UNAUTHORIZED'` (this is how src/middleware/auth.ts calls it). -/
def UnauthorizedError.withMessage (message : String) : AppErrorData :=
  UnauthorizedError message "UNAUTHORIZED"

/-- `class ForbiddenError extends AppError`: `super(message, 403, code)`. -/
def ForbiddenError (message code : String) : AppErrorData :=
  AppError.make message 403 code true

/-- `new ForbiddenError()` with both TS default parameters. -/
def ForbiddenError.noArg : AppErrorData :=
  ForbiddenError "Forbidden" "FORBIDDEN"

/-- `class NotFoundError extends AppError`: `super(message, 404, code)`. -/
def NotFoundError (message code : String) : AppErrorData :=
  AppError.make message 404 code true

/-- `new NotFoundError()` with both TS default parameters. -/
def NotFoundError.noArg : AppErrorData :=
  NotFoundError "Not Found" "NOT_FOUND"

/-- `class ConflictError extends AppError`: `super(message, 409, code)`. -/
def ConflictError (message code : String) : AppErrorData :=
  AppError.make message 409 code true

/-- `new ConflictError()` with both TS default parameters. -/
def ConflictError.noArg : AppErrorData :=
  ConflictError "Conflict" "CONFLICT"

/-- `class TooManyRequestsError extends AppError`:
`super(message, 429, code)`. -/
def TooManyRequestsError (message code : String) : AppErrorData :=
  AppError.make message 429 code true

/-- `new TooManyRequestsError()` with both TS default parameters. -/
def TooManyRequestsError.noArg : AppErrorData :=
  TooManyRequestsError "Too Many Requests" "RATE_LIMITED"

/-- `class InternalServerError extends AppError`:
`super(message, 500, code, false)` — the only kind constructed with
`isOperational = false`. -/
def InternalServerError (message code : String) : AppErrorData :=
  AppError.make message 500 code false

/-- `new InternalServerError()` with both TS default parameters. -/
def InternalServerError.noArg : AppErrorData :=
  InternalServerError "Internal Server Error" "INTERNAL_ERROR"

/-- A JavaScript error value as the global error handler discriminates
it: an `AppError` instance, a `ValidationError` instance (the `AppError`
subclass that additionally carries a field-error map), or any other
thrown value, of which the handler only ever inspects `name`, `message`,
whether it is a `SyntaxError` instance and whether it has a `body`
property. -/
inductive JsError where
  | appError (e : AppErrorData)
  | validationError (e : AppErrorData) (errors : FieldErrorMap)
  | other (name : String) (message : String)
      (isSyntaxError : Bool) (hasBodyProp : Bool)
  deriving Repr, DecidableEq

/-- `class ValidationError extends AppError`:
`super(message, 422, 'VALIDATION_ERROR')` plus the stored `errors` map. -/
def ValidationError (message : String) (errors : FieldErrorMap) : JsError :=
  JsError.validationError (AppError.make message 422 "VALIDATION_ERROR" true) errors

/-- `new ValidationError()` with both TS default parameters
(default message, empty field-error map). -/
def ValidationError.noArg : JsError :=
  ValidationError "Validation Error" []

/-- The observable HTTP output of `sendError` (src/core/response.ts): the
status code passed to `res.status` plus the JSON body fields
`success`, `message` and the optional `errors` map. -/
structure ErrorResponse where
  status : Nat
  success : Bool
  message : String
  errors : Option FieldErrorMap
  deriving Repr, DecidableEq

/-- `sendError(res, message, statusCode = 500, errors?)` writes
`statusCode` and the body `success: false, message` with `errors`
included only when supplied. -/
def sendError (message : String) (statusCode : Nat)
    (errors : Option FieldErrorMap) : ErrorResponse :=
  { status := statusCode, success := false, message := message,
    errors := errors }

/-- The keys of the serialized JSON body of an error response, in
construction order: `success` and `message` always, and `errors` only
when it was supplied — the conditional spread in `sendError` omits the
key entirely otherwise.  No other key is ever written; in particular the
body never has a `code` key. -/
def ErrorResponse.bodyKeys (r : ErrorResponse) : List String :=
  ["success", "message"] ++ (match r.errors with
    | some _ => ["errors"]
    | none => [])

/-- The global error sink (src/middleware/errorHandler.ts,
`errorHandler`), with `config.isProduction` passed explicitly.  Branch
order as in the source: `instanceof AppError` (with the inner
`instanceof ValidationError` test) first, then the two Prisma error
names, then `instanceof SyntaxError && 'body' in err`, then the unknown
fallback whose message depends on the environment. -/
def errorHandler (isProduction : Bool) (err : JsError) : ErrorResponse :=
  match err with
  | JsError.validationError e errors => sendError e.message e.statusCode (some errors)
  | JsError.appError e => sendError e.message e.statusCode none
  | JsError.other name message isSyntaxError hasBodyProp =>
    if name = "PrismaClientKnownRequestError" then
      sendError "Database operation failed" 400 none
    else if name = "PrismaClientValidationError" then
      sendError "Invalid data provided" 400 none
    else if isSyntaxError && hasBodyProp then
      sendError "Invalid JSON payload" 400 none
    else
      sendError (if isProduction then "An unexpected error occurred" else message)
        500 none

/-- A non-`AppError` error of this shape reaches the final (unknown)
branch of `errorHandler`: it is neither of the two Prisma error names
and not a `SyntaxError` carrying a `body` property. -/
def fallsThroughToUnknown (name : String)
    (isSyntaxError hasBodyProp : Bool) : Prop :=
  name ≠ "PrismaClientKnownRequestError" ∧
  name ≠ "PrismaClientValidationError" ∧
  ¬(isSyntaxError = true ∧ hasBodyProp = true)

instance (name : String) (s b : Bool) :
    Decidable (fallsThroughToUnknown name s b) := by
  unfold fallsThroughToUnknown
  infer_instance

/-- C1: the global error sink converts an error to an HTTP response by
the source's branch precedence: a taxonomy member of the Validation kind
gets its own status, message and field-error map; any other taxonomy
member gets its own status and message with no errors map; otherwise an
error named `PrismaClientKnownRequestError` gets 400 "Database operation
failed" and one named `PrismaClientValidationError` gets 400 "Invalid
data provided" (each regardless of the syntax-error flags, showing the
name branches shadow the later ones); otherwise a body-parse syntax
error gets 400 "Invalid JSON payload"; otherwise the response status is
500.  Earlier branches take precedence for every input error. -/
theorem errorHandler_branch_precedence (isProd : Bool) :
    (∀ e errors, errorHandler isProd (JsError.validationError e errors) =
      { status := e.statusCode, success := false, message := e.message,
        errors := some errors }) ∧
    (∀ e, errorHandler isProd (JsError.appError e) =
      { status := e.statusCode, success := false, message := e.message,
        errors := none }) ∧
    (∀ msg s b, errorHandler isProd
        (JsError.other "PrismaClientKnownRequestError" msg s b) =
      { status := 400, success := false, message := "Database operation failed",
        errors := none }) ∧
    (∀ msg s b, errorHandler isProd
        (JsError.other "PrismaClientValidationError" msg s b) =
      { status := 400, success := false, message := "Invalid data provided",
        errors := none }) ∧
    (∀ name msg, name ≠ "PrismaClientKnownRequestError" →
      name ≠ "PrismaClientValidationError" →
      errorHandler isProd (JsError.other name msg true true) =
        { status := 400, success := false, message := "Invalid JSON payload",
          errors := none }) ∧
    (∀ name msg s b, fallsThroughToUnknown name s b →
      (errorHandler isProd (JsError.other name msg s b)).status = 500) := by
  refine ⟨fun e errors => rfl, fun e => rfl, fun msg s b => rfl,
    fun msg s b => rfl, fun name msg h1 h2 => ?_, fun name msg s b h => ?_⟩
  · simp [errorHandler, sendError, h1, h2]
  · obtain ⟨h1, h2, h3⟩ := h
    simp only [errorHandler, sendError, if_neg h1, if_neg h2]
    have hsb : (s && b) = false := by
      cases s <;> cases b <;> simp_all
    simp [hsb]

/-- Witness for C1: the syntax-error branch fires at a concrete error
named `TypeError` (which is neither Prisma name). -/
theorem errorHandler_branch_precedence_witness :
    ("TypeError" ≠ "PrismaClientKnownRequestError") ∧
    ("TypeError" ≠ "PrismaClientValidationError") ∧
    errorHandler true (JsError.other "TypeError" "boom" true true) =
      { status := 400, success := false, message := "Invalid JSON payload",
        errors := none } :=
  ⟨by decide, by decide,
    (errorHandler_branch_precedence true).2.2.2.2.1 "TypeError" "boom"
      (by decide) (by decide)⟩

/-- C2: for every error reaching the unknown branch of the sink, the
production response is status 500 with the fixed message "An unexpected
error occurred" — identical for any two such errors, whatever their
original messages — while outside production the response is status 500
with the original message. -/
theorem errorHandler_unknown_env_hyperproperty
    (name₁ msg₁ : String) (s₁ b₁ : Bool)
    (name₂ msg₂ : String) (s₂ b₂ : Bool)
    (h₁ : fallsThroughToUnknown name₁ s₁ b₁)
    (h₂ : fallsThroughToUnknown name₂ s₂ b₂) :
    errorHandler true (JsError.other name₁ msg₁ s₁ b₁) =
      { status := 500, success := false,
        message := "An unexpected error occurred", errors := none } ∧
    errorHandler true (JsError.other name₁ msg₁ s₁ b₁) =
      errorHandler true (JsError.other name₂ msg₂ s₂ b₂) ∧
    errorHandler false (JsError.other name₁ msg₁ s₁ b₁) =
      { status := 500, success := false, message := msg₁, errors := none } := by
  obtain ⟨h₁a, h₁b, h₁c⟩ := h₁
  obtain ⟨h₂a, h₂b, h₂c⟩ := h₂
  have hsb₁ : (s₁ && b₁) = false := by cases s₁ <;> cases b₁ <;> simp_all
  have hsb₂ : (s₂ && b₂) = false := by cases s₂ <;> cases b₂ <;> simp_all
  refine ⟨?_, ?_, ?_⟩ <;>
    simp [errorHandler, sendError, if_neg h₁a, if_neg h₁b, if_neg h₂a,
      if_neg h₂b, hsb₁, hsb₂]

/-- Witness for C2: two concrete unknown errors with different messages
collapse to the same production response. -/
theorem errorHandler_unknown_env_hyperproperty_witness :
    fallsThroughToUnknown "TypeError" false false ∧
    fallsThroughToUnknown "RangeError" false true ∧
    (errorHandler true (JsError.other "TypeError" "boom A" false false) =
      { status := 500, success := false,
        message := "An unexpected error occurred", errors := none } ∧
    errorHandler true (JsError.other "TypeError" "boom A" false false) =
      errorHandler true (JsError.other "RangeError" "boom B" false true) ∧
    errorHandler false (JsError.other "TypeError" "boom A" false false) =
      { status := 500, success := false, message := "boom A",
        errors := none }) :=
  ⟨by decide, by decide,
    errorHandler_unknown_env_hyperproperty "TypeError" "boom A" false false
      "RangeError" "boom B" false true (by decide) (by decide)⟩

/-- C3: each taxonomy constructor called with no arguments produces
exactly the table's status / code / message (the Validation kind with an
empty field-error map), every kind admits an overriding message (and,
where applicable, an overriding code), and `isOperational` is true for
every kind except InternalServer. -/
theorem error_taxonomy_defaults :
    (BadRequestError.noArg =
      { message := "Bad Request", statusCode := 400, code := "BAD_REQUEST",
        isOperational := true }) ∧
    (UnauthorizedError.noArg =
      { message := "Unauthorized", statusCode := 401, code := "UNAUTHORIZED",
        isOperational := true }) ∧
    (ForbiddenError.noArg =
      { message := "Forbidden", statusCode := 403, code := "FORBIDDEN",
        isOperational := true }) ∧
    (NotFoundError.noArg =
      { message := "Not Found", statusCode := 404, code := "NOT_FOUND",
        isOperational := true }) ∧
    (ConflictError.noArg =
      { message := "Conflict", statusCode := 409, code := "CONFLICT",
        isOperational := true }) ∧
    (ValidationError.noArg = JsError.validationError
      { message := "Validation Error", statusCode := 422,
        code := "VALIDATION_ERROR", isOperational := true } []) ∧
    (TooManyRequestsError.noArg =
      { message := "Too Many Requests", statusCode := 429,
        code := "RATE_LIMITED", isOperational := true }) ∧
    (InternalServerError.noArg =
      { message := "Internal Server Error", statusCode := 500,
        code := "INTERNAL_ERROR", isOperational := false }) ∧
    (∀ m c, BadRequestError m c =
      { message := m, statusCode := 400, code := c, isOperational := true }) ∧
    (∀ m c, UnauthorizedError m c =
      { message := m, statusCode := 401, code := c, isOperational := true }) ∧
    (∀ m c, ForbiddenError m c =
      { message := m, statusCode := 403, code := c, isOperational := true }) ∧
    (∀ m c, NotFoundError m c =
      { message := m, statusCode := 404, code := c, isOperational := true }) ∧
    (∀ m c, ConflictError m c =
      { message := m, statusCode := 409, code := c, isOperational := true }) ∧
    (∀ m errs, ValidationError m errs = JsError.validationError
      { message := m, statusCode := 422, code := "VALIDATION_ERROR",
        isOperational := true } errs) ∧
    (∀ m c, TooManyRequestsError m c =
      { message := m, statusCode := 429, code := c, isOperational := true }) ∧
    (∀ m c, InternalServerError m c =
      { message := m, statusCode := 500, code := c, isOperational := false }) :=
  ⟨rfl, rfl, rfl, rfl, rfl, rfl, rfl, rfl,
    fun _ _ => rfl, fun _ _ => rfl, fun _ _ => rfl, fun _ _ => rfl,
    fun _ _ => rfl, fun _ _ => rfl, fun _ _ => rfl, fun _ _ => rfl⟩

/-- The pagination block of `ApiResponse.meta` as written by
`sendPaginated` (src/core/response.ts). -/
structure PageMeta where
  page : Nat
  limit : Nat
  total : Nat
  totalPages : Nat
  deriving Repr, DecidableEq

/-- The observable HTTP output of `sendSuccess`: the status code plus the
body fields `success`, `message` and the optional `data` and `meta`
(each omitted from the body when absent). -/
structure SuccessResponse (α : Type) where
  status : Nat
  success : Bool
  message : String
  data : Option α
  meta : Option PageMeta
  deriving Repr, DecidableEq

/-- `sendSuccess(res, message, data?, statusCode = 200, meta?)`. -/
def sendSuccess {α : Type} (message : String) (data : Option α)
    (statusCode : Nat) (meta : Option PageMeta) : SuccessResponse α :=
  { status := statusCode, success := true, message := message,
    data := data, meta := meta }

/-- `Math.ceil(total / limit)` with the JS numbers (non-negative integers
here) modelled as exact rationals. -/
def mathCeilDiv (total limit : Nat) : Nat :=
  Nat.ceil ((total : ℚ) / (limit : ℚ))

/-- `sendPaginated(res, message, data, pagination)`: computes
`totalPages = Math.ceil(pagination.total / pagination.limit)` and
delegates to `sendSuccess` with status 200 and the populated meta. -/
def sendPaginated {α : Type} (message : String) (data : List α)
    (page limit total : Nat) : SuccessResponse (List α) :=
  let totalPages := mathCeilDiv total limit
  sendSuccess message (some data) 200
    (some { page := page, limit := limit, total := total,
            totalPages := totalPages })

lemma mathCeilDiv_eq_add_pred_div (total limit : Nat) (h : 1 ≤ limit) :
    mathCeilDiv total limit = (total + limit - 1) / limit := by
  have hb : 0 < limit := h
  have hbq : (0 : ℚ) < (limit : ℚ) := by exact_mod_cast hb
  unfold mathCeilDiv
  rw [← Nat.ceilDiv_eq_add_pred_div]
  apply le_antisymm
  · rw [Nat.ceil_le]
    rw [div_le_iff₀ hbq]
    have hle : total ≤ limit * (total ⌈/⌉ limit) := by
      have := le_smul_ceilDiv (α := ℕ) (β := ℕ) (b := total) hb
      simpa [smul_eq_mul] using this
    calc (total : ℚ) ≤ ((limit * (total ⌈/⌉ limit) : ℕ) : ℚ) := by exact_mod_cast hle
      _ = ((total ⌈/⌉ limit : ℕ) : ℚ) * (limit : ℚ) := by push_cast; ring
  · rw [ceilDiv_le_iff_le_mul hb]
    have h1 : (total : ℚ) / (limit : ℚ) ≤ (Nat.ceil ((total : ℚ) / (limit : ℚ)) : ℚ) :=
      Nat.le_ceil _
    have h2 : (total : ℚ) ≤ (limit : ℚ) * (Nat.ceil ((total : ℚ) / (limit : ℚ)) : ℚ) := by
      rw [mul_comm, ← div_le_iff₀ hbq]
      exact h1
    exact_mod_cast h2

/-- C4: for every `(page, limit, total)` with `limit ≥ 1`,
`sendPaginated` writes exactly the arguments into `meta.page`,
`meta.limit` and `meta.total` and derives `meta.totalPages` as
`ceil(total / limit)` (equal to the closed form
`(total + limit - 1) / limit`); `total = 0` yields `totalPages = 0`. -/
theorem sendPaginated_meta_spec {α : Type} (message : String)
    (data : List α) (page limit total : Nat) (h : 1 ≤ limit) :
    sendPaginated message data page limit total =
      { status := 200, success := true, message := message,
        data := some data,
        meta := some { page := page, limit := limit, total := total,
                       totalPages := (total + limit - 1) / limit } } ∧
    mathCeilDiv total limit = (total + limit - 1) / limit ∧
    (total = 0 → mathCeilDiv total limit = 0) := by
  have heq := mathCeilDiv_eq_add_pred_div total limit h
  refine ⟨?_, heq, ?_⟩
  · simp [sendPaginated, sendSuccess, heq]
  · intro h0
    subst h0
    simp [mathCeilDiv]

/-- Witness for C4: a concrete page of 25 items, 10 per page, gives 3
total pages. -/
theorem sendPaginated_meta_spec_witness :
    1 ≤ 10 ∧
    (sendPaginated "ok" [true] 2 10 25 =
      { status := 200, success := true, message := "ok",
        data := some [true],
        meta := some { page := 2, limit := 10, total := 25,
                       totalPages := 3 } } ∧
    mathCeilDiv 25 10 = 3 ∧
    (25 = 0 → mathCeilDiv 25 10 = 0)) :=
  ⟨by decide, sendPaginated_meta_spec "ok" [true] 2 10 25 (by decide)⟩

/-- C7 counterexample: the claim says every error crossing the boundary
carries a `statusCode` and a `code`, unknown shapes defaulting to 500
with code `INTERNAL_ERROR`.  At this concrete unknown error the response
status is indeed 500, but its JSON body has no `code` key at all —
`sendError` only ever writes `success`, `message` and (optionally)
`errors`. -/
theorem response_code_field_counterexample :
    (errorHandler false (JsError.other "WeirdError" "boom" false false)).status
        = 500 ∧
    "code" ∉ (errorHandler false
        (JsError.other "WeirdError" "boom" false false)).bodyKeys := by
  constructor
  · rfl
  · decide

/-- C7 amended: every error that crosses the system boundary as an HTTP
response carries a statusCode, and errors of unknown shape default to
status 500; but no error response body carries a `code` field — the
machine-readable `code` of taxonomy errors (such as `INTERNAL_ERROR`) is
never written to the response. -/
theorem errorHandler_status_no_code_field (isProd : Bool) (err : JsError) :
    "code" ∉ (errorHandler isProd err).bodyKeys ∧
    (∀ name msg s b, fallsThroughToUnknown name s b →
      (errorHandler isProd (JsError.other name msg s b)).status = 500) := by
  constructor
  · have hkeys : ∀ m st e, "code" ∉ (sendError m st e).bodyKeys := by
      intro m st e
      cases e <;> simp [sendError, ErrorResponse.bodyKeys]
    cases err with
    | appError e => exact hkeys _ _ _
    | validationError e errors => exact hkeys _ _ _
    | other name msg s b =>
      simp only [errorHandler]
      split
      · exact hkeys _ _ _
      · split
        · exact hkeys _ _ _
        · split
          · exact hkeys _ _ _
          · exact hkeys _ _ _
  · intro name msg s b h
    obtain ⟨h1, h2, h3⟩ := h
    have hsb : (s && b) = false := by cases s <;> cases b <;> simp_all
    simp [errorHandler, sendError, if_neg h1, if_neg h2, hsb]

/-- Witness for C7's amended theorem at a concrete unknown error. -/
theorem errorHandler_status_no_code_field_witness :
    fallsThroughToUnknown "WeirdError" false false ∧
    ("code" ∉ (errorHandler true
        (JsError.other "WeirdError" "boom" false false)).bodyKeys ∧
    (errorHandler true (JsError.other "WeirdError" "boom" false false)).status
        = 500) :=
  ⟨by decide,
    (errorHandler_status_no_code_field true
        (JsError.other "WeirdError" "boom" false false)).1,
    (errorHandler_status_no_code_field true
        (JsError.other "WeirdError" "boom" false false)).2
      "WeirdError" "boom" false false (by decide)⟩

/-- What a middleware step does with a request: call `next()` carrying
the (possibly replaced) request data, call `next(err)` — which Express
routes to the global error sink — or write an HTTP response itself. -/
inductive StepOutcome (α : Type) where
  | next (req : α)
  | nextError (e : JsError)
  | wroteResponse (r : ErrorResponse)
  deriving Repr, DecidableEq

/-- True exactly when the step wrote an HTTP response itself. -/
def StepOutcome.isWroteResponse {α : Type} : StepOutcome α → Bool
  | StepOutcome.wroteResponse _ => true
  | _ => false

/-- One entry of `error.details` as Joi reports it with
`abortEarly: false`: the field path (segments stringified) and the
violation message.  The details list carries every violation, in
discovery order. -/
structure JoiDetail where
  path : List String
  message : String
  deriving Repr, DecidableEq

/-- The `schema.validate(data, ...)` outcome the middleware branches on:
either a validated/coerced value, or the non-empty violation list. -/
inductive JoiResult (α : Type) where
  | ok (value : α)
  | err (details : List JoiDetail)
  deriving Repr, DecidableEq

/-- `detail.path.join('.')`. -/
def dottedPath (d : JoiDetail) : String := String.intercalate "." d.path

/-- One iteration of the middleware's `error.details.forEach` body:
`if (!errors[key]) errors[key] = []; errors[key].push(message)` under JS
record semantics — append the message to the existing entry for `key`,
or add a new `(key, [message])` entry at the end. -/
def recordPush : FieldErrorMap → String → String → FieldErrorMap
  | [], key, msg => [(key, [msg])]
  | entry :: rest, key, msg =>
    if entry.1 = key then (entry.1, entry.2 ++ [msg]) :: rest
    else entry :: recordPush rest key msg

/-- The field-error map the middleware accumulates over `error.details`. -/
def buildFieldErrors (details : List JoiDetail) : FieldErrorMap :=
  details.foldl (fun acc d => recordPush acc (dottedPath d) d.message) []

/-- JS record lookup `errors[key]`, empty when the key is absent. -/
def FieldErrorMap.valuesOf : FieldErrorMap → String → List String
  | [], _ => []
  | entry :: rest, key =>
    if entry.1 = key then entry.2 else valuesOf rest key

/-- The map's keys in their (insertion) order. -/
def FieldErrorMap.keysOf (m : FieldErrorMap) : List String := m.map Prod.fst

/-- The distinct elements of a list in first-occurrence order. -/
def firstOccurrences (l : List String) : List String :=
  l.foldl (fun ks k => if k ∈ ks then ks else ks ++ [k]) []

/-- The `validate(schema, target)` middleware step
(src/middleware/validation.ts), abstracted over the schema-validation
result: on violation it builds the field-error map and passes a
`ValidationError` to `next`; on success it replaces the request section
with the validated value and continues.  It never writes a response. -/
def validate {α : Type} (result : JoiResult α) : StepOutcome α :=
  match result with
  | JoiResult.err details =>
    StepOutcome.nextError
      (ValidationError "Validation failed" (buildFieldErrors details))
  | JoiResult.ok value => StepOutcome.next value

lemma valuesOf_recordPush (m : FieldErrorMap) (key msg k : String) :
    (recordPush m key msg).valuesOf k =
      if k = key then FieldErrorMap.valuesOf m key ++ [msg]
      else FieldErrorMap.valuesOf m k := by
  induction m with
  | nil =>
    by_cases h : k = key
    · subst h
      simp [recordPush, FieldErrorMap.valuesOf]
    · have h' : ¬ key = k := fun hh => h hh.symm
      simp [recordPush, FieldErrorMap.valuesOf, h, h']
  | cons entry rest ih =>
    by_cases h1 : entry.1 = key
    · by_cases h2 : k = key
      · subst h2
        simp [recordPush, FieldErrorMap.valuesOf, h1]
      · have h2' : ¬ key = k := fun hh => h2 hh.symm
        have h3 : ¬ entry.1 = k := fun hh => h2 (h1 ▸ hh.symm ▸ rfl)
        simp [recordPush, FieldErrorMap.valuesOf, h1, h2, h2', h3]
    · by_cases h2 : entry.1 = k
      · have hk : ¬ k = key := fun hh => h1 (h2.symm ▸ hh ▸ rfl)
        simp [recordPush, FieldErrorMap.valuesOf, h1, h2, hk]
      · simp [recordPush, FieldErrorMap.valuesOf, h1, h2, ih]

lemma keysOf_recordPush (m : FieldErrorMap) (key msg : String) :
    (recordPush m key msg).keysOf =
      if key ∈ FieldErrorMap.keysOf m then FieldErrorMap.keysOf m
      else FieldErrorMap.keysOf m ++ [key] := by
  induction m with
  | nil => simp [recordPush, FieldErrorMap.keysOf]
  | cons entry rest ih =>
    by_cases h1 : entry.1 = key
    · have hmem : key ∈ FieldErrorMap.keysOf (entry :: rest) := by
        simp [FieldErrorMap.keysOf, h1]
      simp [recordPush, h1, FieldErrorMap.keysOf, hmem]
    · have h1' : ¬ key = entry.1 := fun hh => h1 hh.symm
      simp only [recordPush, if_neg h1, FieldErrorMap.keysOf,
        List.map_cons] at ih ⊢
      rw [ih]
      by_cases h2 : key ∈ List.map Prod.fst rest
      · rw [if_pos h2, if_pos (List.mem_cons_of_mem _ h2)]
      · rw [if_neg h2, if_neg (by simp [h2, h1']), List.cons_append]

lemma valuesOf_build_go (details : List JoiDetail) (acc : FieldErrorMap)
    (k : String) :
    (details.foldl (fun a d => recordPush a (dottedPath d) d.message) acc).valuesOf k =
      FieldErrorMap.valuesOf acc k ++
        (details.filter (fun d => decide (dottedPath d = k))).map
          JoiDetail.message := by
  induction details generalizing acc with
  | nil => simp
  | cons d rest ih =>
    simp only [List.foldl_cons, List.filter_cons]
    rw [ih, valuesOf_recordPush]
    by_cases h : dottedPath d = k
    · subst h
      simp [List.append_assoc]
    · have hk : ¬ k = dottedPath d := fun hh => h hh.symm
      simp [h, hk]

lemma keysOf_build_go (details : List JoiDetail) (acc : FieldErrorMap) :
    (details.foldl (fun a d => recordPush a (dottedPath d) d.message) acc).keysOf =
      (details.map dottedPath).foldl
        (fun ks k => if k ∈ ks then ks else ks ++ [k])
        (FieldErrorMap.keysOf acc) := by
  induction details generalizing acc with
  | nil => simp
  | cons d rest ih =>
    simp only [List.foldl_cons, List.map_cons]
    rw [ih, keysOf_recordPush]

lemma buildFieldErrors_valuesOf (details : List JoiDetail) (k : String) :
    (buildFieldErrors details).valuesOf k =
      (details.filter (fun d => decide (dottedPath d = k))).map
        JoiDetail.message := by
  have h := valuesOf_build_go details [] k
  simpa [buildFieldErrors, FieldErrorMap.valuesOf] using h

lemma buildFieldErrors_keysOf (details : List JoiDetail) :
    (buildFieldErrors details).keysOf =
      firstOccurrences (details.map dottedPath) := by
  have h := keysOf_build_go details []
  simpa [buildFieldErrors, FieldErrorMap.keysOf, firstOccurrences] using h

/-- C5: the validate step, for any validation outcome, never writes an
HTTP response itself (its only outcomes are `next` with the validated
value and `next(err)`); on violations it signals a Validation-kind error
carrying the field-error map built from all `error.details`; that map
has, for every dotted field path, exactly that field's violation
messages in discovery order (so every violating field appears, not only
the first), and its keys are the dotted paths in first-occurrence
order. -/
theorem validate_collects_all_violations (α : Type) (result : JoiResult α)
    (details : List JoiDetail) (k : String) (v : α) :
    ((validate result).isWroteResponse = false) ∧
    (validate (JoiResult.err details : JoiResult α) =
      StepOutcome.nextError
        (ValidationError "Validation failed" (buildFieldErrors details))) ∧
    (validate (JoiResult.ok v) = StepOutcome.next v) ∧
    ((buildFieldErrors details).valuesOf k =
      (details.filter (fun d => decide (dottedPath d = k))).map
        JoiDetail.message) ∧
    ((buildFieldErrors details).keysOf =
      firstOccurrences (details.map dottedPath)) := by
  refine ⟨?_, rfl, rfl, buildFieldErrors_valuesOf details k,
    buildFieldErrors_keysOf details⟩
  cases result <;> rfl

/-- A dependency's connectivity, as reported by `checkDatabase`. -/
inductive DepStatus where
  | connected
  | disconnected
  deriving Repr, DecidableEq

/-- The overall health status of `HealthService`. -/
inductive OverallStatus where
  | healthy
  | unhealthy
  | degraded
  deriving Repr, DecidableEq

/-- The string the status renders as in the response message. -/
def OverallStatus.asString : OverallStatus → String
  | OverallStatus.healthy => "healthy"
  | OverallStatus.unhealthy => "unhealthy"
  | OverallStatus.degraded => "degraded"

/-- The database block of the detailed health report: `latency` is
present exactly when the ping succeeded. -/
structure DbHealth where
  status : DepStatus
  latency : Option Nat
  deriving Repr, DecidableEq

/-- `HealthService.checkDatabase`, abstracted over whether the
`SELECT 1` ping succeeds and over the measured latency: success gives
`connected` with the latency, failure gives `disconnected` with no
latency. -/
def checkDatabase (pingSucceeds : Bool) (latency : Nat) : DbHealth :=
  if pingSucceeds then { status := DepStatus.connected, latency := some latency }
  else { status := DepStatus.disconnected, latency := none }

/-- `HealthService.determineOverallStatus`: count the disconnected
dependencies; all of them disconnected gives `unhealthy`, some give
`degraded`, none gives `healthy`. -/
def determineOverallStatus (statuses : List DepStatus) : OverallStatus :=
  let disconnectedCount :=
    (statuses.filter (fun s => decide (s = DepStatus.disconnected))).length
  if disconnectedCount = statuses.length then OverallStatus.unhealthy
  else if disconnectedCount > 0 then OverallStatus.degraded
  else OverallStatus.healthy

/-- The environment-sourced fields of the basic health report
(timestamp, process uptime, version). -/
structure BasicHealth where
  timestamp : String
  uptime : Nat
  version : String
  deriving Repr, DecidableEq

/-- The memory block of the detailed health report. -/
structure MemoryUsage where
  used : Nat
  total : Nat
  percentage : Nat
  deriving Repr, DecidableEq

/-- The `DetailedHealthStatus` value `getDetailedHealth` returns. -/
structure DetailedHealth where
  status : OverallStatus
  timestamp : String
  uptime : Nat
  version : String
  database : DbHealth
  memory : MemoryUsage
  deriving Repr, DecidableEq

/-- `HealthService.getDetailedHealth`, with the process-state reads
(basic health fields, memory usage) and the ping outcome passed
explicitly: checks the database and derives the overall status from the
one-element dependency-status list `[dbHealth.status]`. -/
def getDetailedHealth (basic : BasicHealth) (pingSucceeds : Bool)
    (latency : Nat) (memory : MemoryUsage) : DetailedHealth :=
  let dbHealth := checkDatabase pingSucceeds latency
  let overallStatus := determineOverallStatus [dbHealth.status]
  { status := overallStatus, timestamp := basic.timestamp,
    uptime := basic.uptime, version := basic.version,
    database := dbHealth, memory := memory }

/-- `HealthController.detailed`: fetches the detailed health and replies
via `sendSuccess` with status 200 when the overall status is `healthy`
and 503 otherwise. -/
def detailedController (basic : BasicHealth) (pingSucceeds : Bool)
    (latency : Nat) (memory : MemoryUsage) : SuccessResponse DetailedHealth :=
  let health := getDetailedHealth basic pingSucceeds latency memory
  let statusCode := if health.status = OverallStatus.healthy then 200 else 503
  sendSuccess ("Service is " ++ health.status.asString) (some health)
    statusCode none

/-- C6: `determineOverallStatus` maps all-disconnected to `unhealthy`,
a mix of disconnected and connected to `degraded`, and none-disconnected
(on the non-empty lists `getDetailedHealth` passes it) to `healthy`; the
detailed endpoint replies 200 exactly when the overall status is
`healthy` and 503 otherwise, with the reported database status
`connected` when the ping succeeds and `disconnected` when it fails. -/
theorem health_detailed_spec (basic : BasicHealth) (pingSucceeds : Bool)
    (latency : Nat) (memory : MemoryUsage) (statuses : List DepStatus)
    (hne : statuses ≠ []) :
    ((∀ s ∈ statuses, s = DepStatus.disconnected) →
      determineOverallStatus statuses = OverallStatus.unhealthy) ∧
    ((∃ s ∈ statuses, s = DepStatus.disconnected) →
      (∃ s ∈ statuses, s = DepStatus.connected) →
      determineOverallStatus statuses = OverallStatus.degraded) ∧
    ((∀ s ∈ statuses, s ≠ DepStatus.disconnected) →
      determineOverallStatus statuses = OverallStatus.healthy) ∧
    ((detailedController basic pingSucceeds latency memory).status =
      if (getDetailedHealth basic pingSucceeds latency memory).status =
          OverallStatus.healthy then 200 else 503) ∧
    ((detailedController basic pingSucceeds latency memory).data =
      some (getDetailedHealth basic pingSucceeds latency memory)) ∧
    ((getDetailedHealth basic pingSucceeds latency memory).database.status =
      if pingSucceeds then DepStatus.connected else DepStatus.disconnected) ∧
    ((detailedController basic pingSucceeds latency memory).status =
      if pingSucceeds then 200 else 503) := by
  refine ⟨?_, ?_, ?_, ?_, ?_, ?_, ?_⟩
  · intro h
    have hf : statuses.filter (fun s => decide (s = DepStatus.disconnected)) =
        statuses :=
      List.filter_eq_self.mpr (fun a ha => by simp [h a ha])
    simp [determineOverallStatus, hf]
  · intro h1 h2
    obtain ⟨s1, hs1, he1⟩ := h1
    obtain ⟨s2, hs2, he2⟩ := h2
    subst he1
    subst he2
    have hlt : (statuses.filter
        (fun s => decide (s = DepStatus.disconnected))).length
        < statuses.length := by
      apply List.length_filter_lt_length_iff_exists.mpr
      exact ⟨DepStatus.connected, hs2, by simp⟩
    have hmem : DepStatus.disconnected ∈
        statuses.filter (fun s => decide (s = DepStatus.disconnected)) :=
      List.mem_filter.mpr ⟨hs1, by decide⟩
    have hpos : 0 < (statuses.filter
        (fun s => decide (s = DepStatus.disconnected))).length :=
      List.length_pos.mpr (fun hnil => by
        rw [hnil] at hmem
        exact List.not_mem_nil _ hmem)
    simp only [determineOverallStatus]
    rw [if_neg (Nat.ne_of_lt hlt), if_pos hpos]
  · intro h
    have hf : statuses.filter (fun s => decide (s = DepStatus.disconnected)) =
        [] := by
      rw [List.filter_eq_nil_iff]
      intro a ha
      simp [h a ha]
    have hlen : statuses.length ≠ 0 :=
      fun h0 => hne (List.length_eq_zero.mp h0)
    simp [determineOverallStatus, hf, Ne.symm hlen]
  · cases pingSucceeds <;>
      simp [detailedController, sendSuccess, getDetailedHealth,
        checkDatabase, determineOverallStatus]
  · cases pingSucceeds <;>
      simp [detailedController, sendSuccess, getDetailedHealth,
        checkDatabase, determineOverallStatus]
  · cases pingSucceeds <;>
      simp [getDetailedHealth, checkDatabase, determineOverallStatus]
  · cases pingSucceeds <;>
      simp [detailedController, sendSuccess, getDetailedHealth,
        checkDatabase, determineOverallStatus]

/-- Witness for C6 at concrete inputs: a mixed dependency list is
`degraded`, and a failed ping yields a 503 with the database reported
`disconnected`. -/
theorem health_detailed_spec_witness :
    ([DepStatus.disconnected, DepStatus.connected] ≠ ([] : List DepStatus)) ∧
    determineOverallStatus [DepStatus.disconnected, DepStatus.connected] =
      OverallStatus.degraded ∧
    (detailedController { timestamp := "t", uptime := 1, version := "1.0.0" }
        false 0 { used := 1, total := 2, percentage := 50 }).status = 503 ∧
    (getDetailedHealth { timestamp := "t", uptime := 1, version := "1.0.0" }
        false 0 { used := 1, total := 2, percentage := 50 }).database.status =
      DepStatus.disconnected := by
  have h := health_detailed_spec
    { timestamp := "t", uptime := 1, version := "1.0.0" } false 0
    { used := 1, total := 2, percentage := 50 }
    [DepStatus.disconnected, DepStatus.connected] (by decide)
  refine ⟨by decide, ?_, ?_, ?_⟩
  · exact h.2.1 (by decide) (by decide)
  · rw [h.2.2.2.2.2.2]
    decide
  · rw [h.2.2.2.2.2.1]
    decide

/-- C9: because `getDetailedHealth` always passes the one-element list
`[dbHealth.status]` to `determineOverallStatus`, its overall status is
never `degraded`: it is `healthy` when the ping succeeds and `unhealthy`
when it fails, and on any singleton list the derived status is `healthy`
for `connected` and `unhealthy` for `disconnected`. -/
theorem getDetailedHealth_never_degraded (basic : BasicHealth)
    (pingSucceeds : Bool) (latency : Nat) (memory : MemoryUsage) :
    (decide ((getDetailedHealth basic pingSucceeds latency memory).status =
      OverallStatus.degraded) = false) ∧
    ((getDetailedHealth basic pingSucceeds latency memory).status =
      if pingSucceeds then OverallStatus.healthy else OverallStatus.unhealthy) ∧
    (∀ s, determineOverallStatus [s] =
      if s = DepStatus.connected then OverallStatus.healthy
      else OverallStatus.unhealthy) := by
  refine ⟨?_, ?_, ?_⟩
  · cases pingSucceeds <;>
      simp [getDetailedHealth, checkDatabase, determineOverallStatus]
  · cases pingSucceeds <;>
      simp [getDetailedHealth, checkDatabase, determineOverallStatus]
  · intro s
    cases s <;> simp [determineOverallStatus]

/-- The identity the auth middleware would attach to a request. -/
structure AuthUser where
  id : String
  email : String
  role : String
  deriving Repr, DecidableEq

/-- The slice of an `AuthenticatedRequest` the auth middleware reads and
writes: the `Authorization` header (absent or a string) and the optional
attached identity `user`. -/
structure AuthRequest where
  authorization : Option String
  user : Option AuthUser
  deriving Repr, DecidableEq

/-- An inbound HTTP request: whatever the `Authorization` header is, no
identity is attached yet — only middleware could attach one. -/
def inboundRequest (authorization : Option String) : AuthRequest :=
  { authorization := authorization, user := none }

/-- JS `String.prototype.split(' ')` on the character list: split at
every single space, keeping empty chunks. -/
def splitCharsOnSpace : List Char → List (List Char)
  | [] => [[]]
  | c :: rest =>
    match splitCharsOnSpace rest with
    | [] => [[]]
    | cur :: done =>
      if c = ' ' then [] :: cur :: done else (c :: cur) :: done

/-- JS `authHeader.split(' ')`. -/
def jsSplitOnSpace (s : String) : List String :=
  (splitCharsOnSpace s.toList).map List.asString

/-- JS `s.startsWith(pre)`. -/
def jsStartsWith (s pre : String) : Bool :=
  pre.toList.isPrefixOf s.toList

/-- The `authenticate` middleware step (src/middleware/auth.ts): a
missing header, or one not starting with `Bearer `, signals
Unauthorized "No token provided" (an empty-string header also fails the
`Bearer ` test, matching the source's `!authHeader` falsy check); a
falsy `authHeader.split(' ')[1]` (absent or empty) signals Unauthorized
"Invalid token"; otherwise — token verification being left
unimplemented — it calls `next()` without ever writing `req.user`.  The
thrown errors are caught and forwarded to `next(error)`. -/
def authenticate (req : AuthRequest) : StepOutcome AuthRequest :=
  match req.authorization with
  | none =>
    StepOutcome.nextError
      (JsError.appError (UnauthorizedError.withMessage "No token provided"))
  | some authHeader =>
    if !(jsStartsWith authHeader "Bearer ") then
      StepOutcome.nextError
        (JsError.appError (UnauthorizedError.withMessage "No token provided"))
    else
      match (jsSplitOnSpace authHeader)[1]? with
      | none =>
        StepOutcome.nextError
          (JsError.appError (UnauthorizedError.withMessage "Invalid token"))
      | some token =>
        if token = "" then
          StepOutcome.nextError
            (JsError.appError (UnauthorizedError.withMessage "Invalid token"))
        else
          StepOutcome.next req

/-- The `authorize(...allowedRoles)` middleware step: no attached
identity signals Unauthorized "User not authenticated"; an identity
whose role is not in the allowed set signals Unauthorized
"Insufficient permissions"; otherwise it continues. -/
def authorize (allowedRoles : List String) (req : AuthRequest) :
    StepOutcome AuthRequest :=
  match req.user with
  | none =>
    StepOutcome.nextError
      (JsError.appError (UnauthorizedError.withMessage "User not authenticated"))
  | some u =>
    if !(allowedRoles.contains u.role) then
      StepOutcome.nextError
        (JsError.appError (UnauthorizedError.withMessage "Insufficient permissions"))
    else
      StepOutcome.next req

/-- Running `authenticate` and then, if it continued, `authorize` — the
order the two steps are mounted on a protected route.  An error outcome
short-circuits past `authorize` straight to the global error sink. -/
def authThenAuthorize (allowedRoles : List String) (req : AuthRequest) :
    StepOutcome AuthRequest :=
  match authenticate req with
  | StepOutcome.next r => authorize allowedRoles r
  | out => out

lemma authenticate_cases (req : AuthRequest) :
    authenticate req = StepOutcome.next req ∨
    ∃ m, authenticate req = StepOutcome.nextError
      (JsError.appError (UnauthorizedError.withMessage m)) := by
  cases hA : req.authorization with
  | none => exact Or.inr ⟨"No token provided", by simp [authenticate, hA]⟩
  | some authHeader =>
    by_cases hs : jsStartsWith authHeader "Bearer "
    · cases ht : (jsSplitOnSpace authHeader)[1]? with
      | none =>
        exact Or.inr ⟨"Invalid token", by simp [authenticate, hA, hs, ht]⟩
      | some token =>
        by_cases h0 : token = ""
        · exact Or.inr ⟨"Invalid token", by simp [authenticate, hA, hs, ht, h0]⟩
        · exact Or.inl (by simp [authenticate, hA, hs, ht, h0])
    · exact Or.inr ⟨"No token provided", by simp [authenticate, hA, hs]⟩

/-- C8: for every allowed-role set and request, `authorize` only ever
signals Unauthorized-kind errors (status 401, code `UNAUTHORIZED`) —
"User not authenticated" when no identity is attached,
"Insufficient permissions" when the attached identity's role is outside
the set, never a Forbidden-kind error — and continues to the next step
exactly when the identity's role is in the set. -/
theorem authorize_always_unauthorized (allowedRoles : List String)
    (req : AuthRequest) :
    (req.user = none → authorize allowedRoles req =
      StepOutcome.nextError (JsError.appError
        (UnauthorizedError.withMessage "User not authenticated"))) ∧
    (∀ u, req.user = some u → allowedRoles.contains u.role = false →
      authorize allowedRoles req =
        StepOutcome.nextError (JsError.appError
          (UnauthorizedError.withMessage "Insufficient permissions"))) ∧
    (∀ u, req.user = some u → allowedRoles.contains u.role = true →
      authorize allowedRoles req = StepOutcome.next req) ∧
    (∀ e, authorize allowedRoles req = StepOutcome.nextError e →
      ∃ m, e = JsError.appError (UnauthorizedError.withMessage m)) ∧
    (∀ m, (UnauthorizedError.withMessage m).statusCode = 401 ∧
      (UnauthorizedError.withMessage m).code = "UNAUTHORIZED" ∧
      (UnauthorizedError.withMessage m).isOperational = true) := by
  refine ⟨?_, ?_, ?_, ?_, fun m => ⟨rfl, rfl, rfl⟩⟩
  · intro h
    simp [authorize, h]
  · intro u hu hc
    have hmem : u.role ∉ allowedRoles := by simpa using hc
    simp [authorize, hu, hmem]
  · intro u hu hc
    have hmem : u.role ∈ allowedRoles := by simpa using hc
    simp [authorize, hu, hmem]
  · intro e he
    cases hu : req.user with
    | none =>
      simp only [authorize, hu] at he
      exact ⟨"User not authenticated",
        ((StepOutcome.nextError.injEq _ _).mp he).symm⟩
    | some u =>
      by_cases hc : u.role ∈ allowedRoles
      · simp [authorize, hu, hc] at he
      · have hcb : (!allowedRoles.contains u.role) = true := by simpa using hc
        simp only [authorize, hu, hcb, if_true] at he
        exact ⟨"Insufficient permissions",
          ((StepOutcome.nextError.injEq _ _).mp he).symm⟩

/-- Witness for C8 at a concrete request whose identity's role is
outside the allowed set. -/
theorem authorize_always_unauthorized_witness :
    ({ authorization := some "Bearer abc",
       user := some { id := "1", email := "a@b.c", role := "guest" } } :
        AuthRequest).user =
      some { id := "1", email := "a@b.c", role := "guest" } ∧
    (["admin"].contains "guest" = false) ∧
    authorize ["admin"]
      { authorization := some "Bearer abc",
        user := some { id := "1", email := "a@b.c", role := "guest" } } =
      StepOutcome.nextError (JsError.appError
        (UnauthorizedError.withMessage "Insufficient permissions")) :=
  ⟨rfl, by decide,
    (authorize_always_unauthorized ["admin"]
      { authorization := some "Bearer abc",
        user := some { id := "1", email := "a@b.c", role := "guest" } }).2.1
      { id := "1", email := "a@b.c", role := "guest" } rfl (by decide)⟩

/-- C10: `authenticate` never attaches an identity — whenever it
continues, the request is unchanged (in particular `user` stays as it
was) — so on any inbound request, running `authenticate` then
`authorize` always ends in an Unauthorized-kind error for every
(non-empty) role set; with a well-formed `Bearer abc123` header
`authenticate` itself accepts, and the error is then precisely
`authorize`'s missing-identity "User not authenticated". -/
theorem authenticate_never_attaches_identity (req : AuthRequest)
    (header : Option String) (roles : List String) (hroles : roles ≠ []) :
    (∀ r, authenticate req = StepOutcome.next r → r = req) ∧
    (∃ m, authThenAuthorize roles (inboundRequest header) =
      StepOutcome.nextError
        (JsError.appError (UnauthorizedError.withMessage m))) ∧
    (authThenAuthorize roles (inboundRequest (some "Bearer abc123")) =
      StepOutcome.nextError (JsError.appError
        (UnauthorizedError.withMessage "User not authenticated"))) ∧
    (authenticate (inboundRequest (some "Bearer abc123")) =
      StepOutcome.next (inboundRequest (some "Bearer abc123"))) := by
  have haccept : authenticate (inboundRequest (some "Bearer abc123")) =
      StepOutcome.next (inboundRequest (some "Bearer abc123")) := by decide
  refine ⟨?_, ?_, ?_, haccept⟩
  · intro r hr
    rcases authenticate_cases req with h | ⟨m, h⟩
    · rw [h] at hr
      exact (StepOutcome.next.injEq _ _ ▸ hr).symm
    · rw [h] at hr
      exact absurd hr (by simp)
  · rcases authenticate_cases (inboundRequest header) with h | ⟨m, h⟩
    · refine ⟨"User not authenticated", ?_⟩
      simp only [inboundRequest] at h ⊢
      simp [authThenAuthorize, h, authorize]
    · exact ⟨m, by simp [authThenAuthorize, h]⟩
  · have h := haccept
    simp only [inboundRequest] at h ⊢
    simp [authThenAuthorize, h, authorize]

/-- Witness for C10: the concrete accepted header `Bearer abc123` with
the non-empty role set `["admin"]` still ends in the missing-identity
Unauthorized error. -/
theorem authenticate_never_attaches_identity_witness :
    (["admin"] ≠ ([] : List String)) ∧
    (authThenAuthorize ["admin"] (inboundRequest (some "Bearer abc123")) =
      StepOutcome.nextError (JsError.appError
        (UnauthorizedError.withMessage "User not authenticated"))) ∧
    (authenticate (inboundRequest (some "Bearer abc123")) =
      StepOutcome.next (inboundRequest (some "Bearer abc123"))) :=
  ⟨by decide,
    (authenticate_never_attaches_identity
      (inboundRequest (some "Bearer abc123")) (some "Bearer abc123")
      ["admin"] (by decide)).2.2.1,
    (authenticate_never_attaches_identity
      (inboundRequest (some "Bearer abc123")) (some "Bearer abc123")
      ["admin"] (by decide)).2.2.2⟩

end NodeArch
